import Mathlib

/-!
Shallow embedding of a minimal Django application: a custom user model,
an audit mixin (`core/models.py`), login/logout views (`core/views.py`),
a product model with a model form (`products/models.py`, `products/forms.py`)
and a product-creation view (`products/views.py`).

Field values arriving over HTTP are strings; the Django form machinery the
code delegates to (CharField stripping, DecimalField parsing and the
`DecimalValidator(10, 2)` attached to `DecimalField(max_digits=10,
decimal_places=2)`) is embedded explicitly below.
-/

instance {ε α : Type} [DecidableEq ε] [DecidableEq α] : DecidableEq (Except ε α) := fun x y =>
  match x, y with
  | Except.error e, Except.error f =>
    if h : e = f then Decidable.isTrue (congrArg Except.error h)
    else Decidable.isFalse (fun hh => h (Except.error.inj hh))
  | Except.ok a, Except.ok b =>
    if h : a = b then Decidable.isTrue (congrArg Except.ok h)
    else Decidable.isFalse (fun hh => h (Except.ok.inj hh))
  | Except.error _, Except.ok _ => Decidable.isFalse (fun hh => Except.noConfusion hh)
  | Except.ok _, Except.error _ => Decidable.isFalse (fun hh => Except.noConfusion hh)

/-- A record of the custom user model (`core.models.UserModel`, extending
`AbstractUser`): identity, credentials, active flag and permission set.
Password hashing is opaque to this repository and is modelled as plain
comparison. -/
structure UserModel where
  id : Nat
  username : String
  password : String
  is_active : Bool
  perms : List String
deriving Repr, DecidableEq

/-- HTTP request methods relevant to the views. -/
inductive Method
  | GET | POST | PUT | DELETE | PATCH | HEAD | OPTIONS
deriving Repr, DecidableEq

/-- Messages emitted through `django.contrib.messages`. -/
inductive Msg
  | success (text : String)
  | error (text : String)
deriving Repr, DecidableEq

/-- An HTTP request as the views see it: method, the authenticated user of
the session (`request.user` when `request.user.is_authenticated`, otherwise
`none`), the POST body and the uploaded files, each a key-value list. -/
structure Request where
  method : Method
  sessionUser : Option UserModel
  post : List (String × String)
  files : List (String × String)
deriving Repr, DecidableEq

/-- Key lookup in a QueryDict-like body: `body.get(k)`. -/
def getKey (body : List (String × String)) (k : String) : Option String :=
  (body.find? (fun p => p.1 == k)).map Prod.snd

/-- The `django.contrib.auth.authenticate` call as configured here
(ModelBackend): look the user up by username, then check the password and
`user_can_authenticate` (the `is_active` flag). -/
def authenticate (users : List UserModel) (username password : String) :
    Option UserModel :=
  match users.find? (fun u => u.username == username) with
  | none => none
  | some u => if u.password == password && u.is_active then some u else none

/-- Permission check `user.has_perm(p)`: membership of the named permission
in the user's permission set. -/
def has_perm (u : UserModel) (p : String) : Bool :=
  u.perms.contains p

/-- The distinct HTTP responses `login_view` can produce. -/
inductive LoginResponse
  | alreadyLoggedIn
  | renderLoginForm
  | loginSuccess
  | redirectLogin
deriving Repr, DecidableEq

/-- Outcome of a completed `login_view` call: the response (`none` models the
Python function returning `None`), the session user after the call, and the
messages emitted during the call. -/
structure LoginResult where
  response : Option LoginResponse
  session : Option UserModel
  messages : List Msg
deriving Repr, DecidableEq

/-- The view `core.views.login_view`. `Except.error` models an uncaught
exception propagating out of the view (in particular the
`MultiValueDictKeyError` raised by `request.POST[...]` on a missing key). -/
def login_view (users : List UserModel) (req : Request) :
    Except String LoginResult :=
  if req.method = Method.GET then
    if req.sessionUser.isSome then
      Except.ok ⟨some LoginResponse.alreadyLoggedIn, req.sessionUser, []⟩
    else
      Except.ok ⟨some LoginResponse.renderLoginForm, req.sessionUser, []⟩
  else if req.method = Method.POST then
    match getKey req.post "username" with
    | none => Except.error "MultiValueDictKeyError: username"
    | some username =>
      match getKey req.post "password" with
      | none => Except.error "MultiValueDictKeyError: password"
      | some password =>
        match authenticate users username password with
        | some user =>
          Except.ok ⟨some LoginResponse.loginSuccess, some user,
            [Msg.success "Login successful"]⟩
        | none =>
          Except.ok ⟨some LoginResponse.redirectLogin, req.sessionUser,
            [Msg.error "Invalid username or password"]⟩
  else
    Except.ok ⟨none, req.sessionUser, []⟩

/-- The distinct HTTP responses `logout_view` can produce:
the `@login_required` redirect for anonymous requesters, or the
`redirect('login')` the view body returns after `logout(request)`. -/
inductive LogoutResponse
  | redirectToLoginNext
  | redirectLogin
deriving Repr, DecidableEq

/-- Outcome of `logout_view`: response plus session user afterwards. -/
structure LogoutResult where
  response : LogoutResponse
  session : Option UserModel
deriving Repr, DecidableEq

/-- The view `core.views.logout_view`: `@login_required` redirects anonymous
requesters to the login page; otherwise `logout(request)` flushes the session
and the view redirects to `login`. The method is never inspected. -/
def logout_view (req : Request) : LogoutResult :=
  match req.sessionUser with
  | none => ⟨LogoutResponse.redirectToLoginNext, none⟩
  | some _ => ⟨LogoutResponse.redirectLogin, none⟩

/-! ## Decimal parsing and validation (Django `forms.DecimalField`) -/

/-- Whitespace as stripped by `str.strip()` and accepted around a decimal
literal by `Decimal`. -/
def isSpaceChar (c : Char) : Bool :=
  c == ' ' || c == '\t' || c == '\n' || c == '\r'

/-- Strip leading and trailing whitespace from a character list. -/
def trimChars (cs : List Char) : List Char :=
  ((cs.dropWhile isSpaceChar).reverse.dropWhile isSpaceChar).reverse

/-- Numeric value of a decimal digit character. -/
def digitVal (c : Char) : Nat := c.toNat - 48

/-- Split a character list into its leading run of decimal digits (as digit
values) and the rest. -/
def takeDigits : List Char → List Nat × List Char
  | [] => ([], [])
  | c :: rest =>
    if c.isDigit then
      let p := takeDigits rest
      (digitVal c :: p.1, p.2)
    else
      ([], c :: rest)

/-- A finite decimal as `Decimal(...)` stores it: sign, integer-part digits
and fractional-part digits as written (the scale is preserved, so
`19.99` and `19.990` are distinct values). -/
structure Dec where
  neg : Bool
  ip : List Nat
  fp : List Nat
deriving Repr, DecidableEq

/-- Parse a string the way `Decimal(str(value))` accepts a plain (finite,
exponent-free) decimal literal: optional surrounding whitespace, optional
sign, digits with an optional point, at least one digit overall. -/
def parseDecimal (s : String) : Option Dec :=
  let cs := trimChars s.toList
  let signed : Bool × List Char :=
    match cs with
    | '-' :: r => (true, r)
    | '+' :: r => (false, r)
    | _ => (false, cs)
  let p := takeDigits signed.2
  match p.2 with
  | [] => if p.1 = [] then none else some ⟨signed.1, p.1, []⟩
  | '.' :: cs2 =>
    let q := takeDigits cs2
    if q.2 = [] && (!p.1.isEmpty || !q.1.isEmpty) then
      some ⟨signed.1, p.1, q.1⟩
    else
      none
  | _ => none

/-- The digit and decimal counts `django.core.validators.DecimalValidator`
derives from `Decimal.as_tuple()`: the coefficient drops leading zeros (an
all-zero coefficient counts one digit), the exponent is minus the number of
fractional digits written. -/
def decCounts (d : Dec) : Nat × Nat :=
  let coeff := (d.ip ++ d.fp).dropWhile (fun x => x == 0)
  let lenc := if coeff.isEmpty then 1 else coeff.length
  let e := d.fp.length
  if e = 0 then (lenc, 0)
  else if lenc < e then (e, e)
  else (lenc, e)

/-- Field-level validation errors of the product form. -/
inductive FieldError
  | required
  | invalid
  | maxLength
  | maxDigits
  | maxDecimalPlaces
  | maxWholeDigits
deriving Repr, DecidableEq

/-- Clean the `precio` field as `forms.DecimalField(max_digits=10,
decimal_places=2)` does: empty value fails `required`, an unparseable value
fails `invalid`, then `DecimalValidator(10, 2)` bounds the digit counts. -/
def clean_precio (v : Option String) : Except FieldError Dec :=
  match v with
  | none => Except.error FieldError.required
  | some s =>
    if s = "" then Except.error FieldError.required
    else
      match parseDecimal s with
      | none => Except.error FieldError.invalid
      | some d =>
        let c := decCounts d
        if 10 < c.1 then Except.error FieldError.maxDigits
        else if 2 < c.2 then Except.error FieldError.maxDecimalPlaces
        else if 8 < c.1 - c.2 then Except.error FieldError.maxWholeDigits
        else Except.ok d

/-- Clean the `nombre` field as the model-derived `forms.CharField(
max_length=100, required=True)` does: strip whitespace, reject an empty
result as `required`, reject more than 100 characters. -/
def clean_nombre (v : Option String) : Except FieldError String :=
  let s := String.mk (trimChars (v.getD "").toList)
  if s = "" then Except.error FieldError.required
  else if 100 < s.length then Except.error FieldError.maxLength
  else Except.ok s

/-- Clean the optional `descripcion` field: stripped, never failing. -/
def clean_descripcion (v : Option String) : Option String :=
  v.map (fun s => String.mk (trimChars s.toList))

/-- The raw submitted values the form binds
(`ProductForm(request.POST, request.FILES)` over fields
`imagen`, `nombre`, `descripcion`, `precio`). -/
structure ProductFormData where
  imagen : Option String
  nombre : Option String
  descripcion : Option String
  precio : Option String
deriving Repr, DecidableEq

/-- Bind the request body and files to the form fields. -/
def extractData (req : Request) : ProductFormData :=
  { imagen := getKey req.files "imagen"
  , nombre := getKey req.post "nombre"
  , descripcion := getKey req.post "descripcion"
  , precio := getKey req.post "precio" }

/-- The error list of one cleaned field. -/
def errList {α : Type} : Except FieldError α → List FieldError
  | Except.error e => [e]
  | Except.ok _ => []

/-- Per-field errors of the bound `ProductForm`. -/
structure FormErrors where
  nombre : List FieldError
  precio : List FieldError
deriving Repr, DecidableEq

/-- The `form.errors` of the bound product form. -/
def productFormErrors (d : ProductFormData) : FormErrors :=
  { nombre := errList (clean_nombre d.nombre)
  , precio := errList (clean_precio d.precio) }

/-- The `form.is_valid()` check: no field has errors. -/
def form_is_valid (e : FormErrors) : Bool :=
  e.nombre.isEmpty && e.precio.isEmpty

/-- A persisted row of `products.models.ProductModel`, including the columns
inherited from `core.models.AuditModel` (`created_by`, `updated_by`,
`active`; timestamps are opaque framework state and are not modelled). -/
structure ProductModelRec where
  pk : Nat
  imagen : Option String
  nombre : String
  descripcion : Option String
  precio : Dec
  created_by : Nat
  updated_by : Nat
  active : Bool
deriving Repr, DecidableEq

/-- The relational state the application touches: the user table, the
product table and the next primary key. -/
structure DB where
  users : List UserModel
  products : List ProductModelRec
  nextPk : Nat
deriving Repr, DecidableEq

/-- The distinct HTTP responses of `create_product`: the `@login_required`
redirect, the `PermissionDenied` (403) raised by
`@permission_required(..., raise_exception=True)`, the GET render of an
unbound form, and the POST render of the bound form carrying the submitted
values and the field errors. -/
inductive CreateResponse
  | redirectToLogin
  | permissionDenied
  | renderEmptyForm
  | renderBoundForm (data : ProductFormData) (errors : FormErrors)
deriving Repr, DecidableEq

/-- Outcome of `create_product`: response (`none` models the Python function
returning `None` on a method that is neither GET nor POST), database state
afterwards, messages emitted. -/
structure CreateResult where
  response : Option CreateResponse
  db : DB
  messages : List Msg
deriving Repr, DecidableEq

/-- The view `products.views.create_product`. Decorator order in the source
puts `@login_required` outermost: an anonymous requester is redirected to
the login page and never reaches the permission check; an authenticated
requester without `products.add_productmodel` hits `PermissionDenied`.
On a valid POST the form instance is stamped with
`created_by = updated_by = request.user` and saved (`active` keeps its model
default `True`); on an invalid POST nothing is saved and the bound form is
re-rendered. -/
def create_product (db : DB) (req : Request) : CreateResult :=
  match req.sessionUser with
  | none => ⟨some CreateResponse.redirectToLogin, db, []⟩
  | some u =>
    if !has_perm u "products.add_productmodel" then
      ⟨some CreateResponse.permissionDenied, db, []⟩
    else if req.method = Method.GET then
      ⟨some CreateResponse.renderEmptyForm, db, []⟩
    else if req.method = Method.POST then
      let data := extractData req
      let errs := productFormErrors data
      match clean_nombre data.nombre, clean_precio data.precio with
      | Except.ok n, Except.ok p =>
        let row : ProductModelRec :=
          ⟨db.nextPk, data.imagen, n, clean_descripcion data.descripcion, p,
            u.id, u.id, true⟩
        ⟨some (CreateResponse.renderBoundForm data errs),
          ⟨db.users, db.products ++ [row], db.nextPk + 1⟩,
          [Msg.success "Product created successfully"]⟩
      | _, _ =>
        ⟨some (CreateResponse.renderBoundForm data errs), db,
          [Msg.error "Error creating product"]⟩
    else
      ⟨none, db, []⟩

/-- Whether a user id is present in the user table. -/
def userExists (users : List UserModel) (uid : Nat) : Bool :=
  users.any (fun u => u.id == uid)

/-- The referential invariant declared by `AuditModel`: every product's
`created_by` and `updated_by` reference an existing user row. -/
def refsOk (db : DB) : Bool :=
  db.products.all (fun p =>
    userExists db.users p.created_by && userExists db.users p.updated_by)

/-- Deletion of a user row under the `on_delete=PROTECT` constraint both
foreign keys of `AuditModel` declare: the delete is blocked (`none`,
modelling `ProtectedError`) while any product references the user. -/
def deleteUser (db : DB) (uid : Nat) : Option DB :=
  if db.products.any (fun p => p.created_by == uid || p.updated_by == uid) then
    none
  else
    some ⟨db.users.filter (fun u => u.id != uid), db.products, db.nextPk⟩

/-- The authorization gate of `create_product` as a predicate: an
authenticated session whose user holds `products.add_productmodel`. -/
def authorized (req : Request) : Bool :=
  match req.sessionUser with
  | some u => has_perm u "products.add_productmodel"
  | none => false

/-- A `precio` field value that `Decimal(...)` cannot parse (a missing field
counts: there is no number to parse). -/
def precioUnparseable (v : Option String) : Bool :=
  match v with
  | none => true
  | some s => (parseDecimal s).isNone

/-! ## Helper lemmas -/

theorem clean_nombre_none : clean_nombre none = Except.error FieldError.required := by
  decide

theorem errList_nil_iff {α : Type} (x : Except FieldError α) :
    errList x = [] ↔ ∃ a, x = Except.ok a := by
  cases x <;> simp [errList]

theorem clean_precio_of_unparseable (v : Option String)
    (h : precioUnparseable v = true) :
    clean_precio v = Except.error FieldError.required ∨
    clean_precio v = Except.error FieldError.invalid := by
  cases v with
  | none => exact Or.inl rfl
  | some s =>
    have hp : parseDecimal s = none := by
      simpa [precioUnparseable, Option.isNone_iff_eq_none] using h
    by_cases he : s = ""
    · subst he
      exact Or.inl (by simp [clean_precio])
    · exact Or.inr (by simp [clean_precio, he, hp])

theorem find?_username_of_mem (users : List UserModel) (un : String) (u : UserModel)
    (hn : (users.map (fun x => x.username)).Nodup) (hm : u ∈ users)
    (hu : u.username = un) :
    users.find? (fun x => x.username == un) = some u := by
  induction users with
  | nil => cases hm
  | cons v rest ih =>
    rw [List.map_cons, List.nodup_cons] at hn
    rcases List.mem_cons.mp hm with h | h
    · subst h
      exact List.find?_cons_of_pos _ (by simp [hu])
    · have hvne : ¬ ((fun x => x.username == un) v = true) := by
        simp only [beq_iff_eq]
        intro he
        have hin : un ∈ rest.map (fun x => x.username) :=
          hu ▸ List.mem_map_of_mem (fun x => x.username) h
        exact hn.1 (by rw [he]; exact hin)
      exact (List.find?_cons_of_neg (p := fun x => x.username == un) rest hvne).trans
        (ih hn.2 h)

theorem authenticate_of_match (users : List UserModel) (u : UserModel)
    (hn : (users.map (fun x => x.username)).Nodup) (hm : u ∈ users)
    (ha : u.is_active = true) :
    authenticate users u.username u.password = some u := by
  unfold authenticate
  rw [find?_username_of_mem users u.username u hn hm rfl]
  simp [ha]

theorem authenticate_of_no_match (users : List UserModel) (un pw : String)
    (h : ∀ u ∈ users, ¬(u.username = un ∧ u.password = pw ∧ u.is_active = true)) :
    authenticate users un pw = none := by
  unfold authenticate
  cases hf : users.find? (fun x => x.username == un) with
  | none => rfl
  | some v =>
    have hv : v.username = un := by simpa using List.find?_some hf
    have hmem := List.mem_of_find?_eq_some hf
    have hc : ¬ ((v.password == pw && v.is_active) = true) := by
      simp only [Bool.and_eq_true, beq_iff_eq]
      exact fun hx => h v hmem ⟨hv, hx.1, hx.2⟩
    exact if_neg hc

theorem userExists_of_mem (users : List UserModel) (u : UserModel)
    (hm : u ∈ users) : userExists users u.id = true :=
  List.any_eq_true.mpr ⟨u, hm, by simp⟩

theorem userExists_filter (users : List UserModel) (uid x : Nat)
    (hx : x ≠ uid) (h : userExists users x = true) :
    userExists (users.filter (fun u => u.id != uid)) x = true := by
  rcases List.any_eq_true.mp h with ⟨w, hw, hwx⟩
  have hwx2 : w.id = x := by simpa using hwx
  refine List.any_eq_true.mpr ⟨w, List.mem_filter.mpr ⟨hw, ?_⟩, hwx⟩
  simp [hwx2, hx]

/-! ## Claim theorems -/

/-- C6: on every GET to `login_view`, a requester with an authenticated
session gets the "already logged in" 200 response and not the login form,
while an anonymous requester gets the login form rendered; the session is
untouched and no messages are emitted. -/
theorem C6_login_get (users : List UserModel) (req : Request)
    (h : req.method = Method.GET) :
    login_view users req = Except.ok
      ⟨some (if req.sessionUser.isSome then LoginResponse.alreadyLoggedIn
             else LoginResponse.renderLoginForm), req.sessionUser, []⟩ ∧
    LoginResponse.alreadyLoggedIn ≠ LoginResponse.renderLoginForm := by
  refine ⟨?_, by decide⟩
  cases hs : req.sessionUser <;> simp [login_view, h, hs]

/-- C6 witness: a concrete anonymous GET renders the login form. -/
theorem C6_witness :
    (⟨Method.GET, none, [], []⟩ : Request).method = Method.GET ∧
    (login_view [] ⟨Method.GET, none, [], []⟩ = Except.ok
      ⟨some LoginResponse.renderLoginForm, none, []⟩ ∧
     LoginResponse.alreadyLoggedIn ≠ LoginResponse.renderLoginForm) :=
  ⟨rfl, C6_login_get [] ⟨Method.GET, none, [], []⟩ rfl⟩

/-- C7: every request to `logout_view` carrying an authenticated session,
whatever its HTTP method, ends with the session terminated and a redirect to
the login entry point. -/
theorem C7_logout (req : Request) (u : UserModel)
    (h : req.sessionUser = some u) :
    logout_view req = ⟨LogoutResponse.redirectLogin, none⟩ := by
  simp [logout_view, h]

/-- C7 witness: a concrete authenticated DELETE request is logged out and
redirected. -/
theorem C7_witness :
    (⟨Method.DELETE, some ⟨1, "alice", "pw", true, []⟩, [], []⟩ : Request).sessionUser
      = some ⟨1, "alice", "pw", true, []⟩ ∧
    logout_view ⟨Method.DELETE, some ⟨1, "alice", "pw", true, []⟩, [], []⟩
      = ⟨LogoutResponse.redirectLogin, none⟩ :=
  ⟨rfl, C7_logout ⟨Method.DELETE, some ⟨1, "alice", "pw", true, []⟩, [], []⟩
    ⟨1, "alice", "pw", true, []⟩ rfl⟩

/-- C9: a POST to `login_view` whose body lacks `username` or `password`
makes the subscript lookup raise (modelled as `Except.error`, the
`MultiValueDictKeyError` propagating to the framework), so no credentials
response and no session assignment happen. -/
theorem C9_missing_key (users : List UserModel) (req : Request)
    (hm : req.method = Method.POST)
    (h : getKey req.post "username" = none ∨ getKey req.post "password" = none) :
    login_view users req = Except.error
      (if getKey req.post "username" = none then "MultiValueDictKeyError: username"
       else "MultiValueDictKeyError: password") := by
  cases hu : getKey req.post "username" with
  | none => simp [login_view, hm, hu]
  | some un =>
    have hp : getKey req.post "password" = none := by
      rcases h with h1 | h1
      · rw [hu] at h1; cases h1
      · exact h1
    simp [login_view, hm, hu, hp]

/-- C9 witness: a concrete POST with an empty body raises on `username`. -/
theorem C9_witness :
    getKey ([] : List (String × String)) "username" = none ∧
    login_view [] ⟨Method.POST, none, [], []⟩ = Except.error
      (if getKey ([] : List (String × String)) "username" = none
       then "MultiValueDictKeyError: username"
       else "MultiValueDictKeyError: password") :=
  ⟨rfl, C9_missing_key [] ⟨Method.POST, none, [], []⟩ rfl (Or.inl rfl)⟩

/-- C10: a request to `login_view` whose method is neither GET nor POST falls
through both branches: the Python function returns `None` (no HTTP response),
the session is untouched and no message is emitted. -/
theorem C10_no_response (users : List UserModel) (req : Request)
    (h1 : req.method ≠ Method.GET) (h2 : req.method ≠ Method.POST) :
    login_view users req = Except.ok ⟨none, req.sessionUser, []⟩ := by
  simp [login_view, h1, h2]

/-- C10 witness: a concrete PUT request gets no response at all. -/
theorem C10_witness :
    (⟨Method.PUT, none, [], []⟩ : Request).method ≠ Method.GET ∧
    (⟨Method.PUT, none, [], []⟩ : Request).method ≠ Method.POST ∧
    login_view [] ⟨Method.PUT, none, [], []⟩ = Except.ok ⟨none, none, []⟩ :=
  ⟨by decide, by decide,
    C10_no_response [] ⟨Method.PUT, none, [], []⟩ (by decide) (by decide)⟩

/-- C1 counterexample: an unauthenticated POST to `create_product` is
answered with the `@login_required` redirect to the login page, which is not
the access-denied response the claim requires for every unauthorized
request. -/
theorem C1_counterexample :
    (create_product ⟨[], [], 1⟩
      ⟨Method.POST, none, [("nombre", "Widget"), ("precio", "19.99")], []⟩).response
      = some CreateResponse.redirectToLogin ∧
    some CreateResponse.redirectToLogin ≠ some CreateResponse.permissionDenied := by
  exact ⟨rfl, by decide⟩

/-- C1 (amended): every request to `create_product` failing the
authorization gate is rejected before any form binding or persistence (the
database is unchanged and no message is emitted); an unauthenticated
requester is silently redirected to the login page by `@login_required`,
while an authenticated requester lacking `products.add_productmodel` gets
the hard `PermissionDenied` error. -/
theorem C1_unauthorized (db : DB) (req : Request)
    (h : authorized req = false) :
    (create_product db req).db = db ∧
    (create_product db req).messages = [] ∧
    (create_product db req).response =
      some (if req.sessionUser.isSome then CreateResponse.permissionDenied
            else CreateResponse.redirectToLogin) := by
  cases hs : req.sessionUser with
  | none => simp [create_product, hs]
  | some u =>
    have hp : has_perm u "products.add_productmodel" = false := by
      simpa [authorized, hs] using h
    simp [create_product, hs, hp]

/-- C1 witness: a concrete authenticated user without the permission is
rejected with `PermissionDenied` and nothing is persisted. -/
theorem C1_witness :
    authorized ⟨Method.POST, some ⟨2, "bob", "pw", true, []⟩,
      [("nombre", "Widget"), ("precio", "19.99")], []⟩ = false ∧
    ((create_product ⟨[⟨2, "bob", "pw", true, []⟩], [], 1⟩
        ⟨Method.POST, some ⟨2, "bob", "pw", true, []⟩,
          [("nombre", "Widget"), ("precio", "19.99")], []⟩).db
      = ⟨[⟨2, "bob", "pw", true, []⟩], [], 1⟩ ∧
     (create_product ⟨[⟨2, "bob", "pw", true, []⟩], [], 1⟩
        ⟨Method.POST, some ⟨2, "bob", "pw", true, []⟩,
          [("nombre", "Widget"), ("precio", "19.99")], []⟩).messages = [] ∧
     (create_product ⟨[⟨2, "bob", "pw", true, []⟩], [], 1⟩
        ⟨Method.POST, some ⟨2, "bob", "pw", true, []⟩,
          [("nombre", "Widget"), ("precio", "19.99")], []⟩).response
       = some CreateResponse.permissionDenied) :=
  ⟨by decide, C1_unauthorized ⟨[⟨2, "bob", "pw", true, []⟩], [], 1⟩
    ⟨Method.POST, some ⟨2, "bob", "pw", true, []⟩,
      [("nombre", "Widget"), ("precio", "19.99")], []⟩ (by decide)⟩

/-- C4: a POST to `login_view` whose `username` and `password` fields match
an existing active user (usernames being unique, as the user table enforces)
authenticates that user, binds the session to them and answers with the 200
"Login successful" response. -/
theorem C4_login_success (users : List UserModel) (req : Request) (u : UserModel)
    (hn : (users.map (fun x => x.username)).Nodup)
    (hm : req.method = Method.POST)
    (hu : getKey req.post "username" = some u.username)
    (hp : getKey req.post "password" = some u.password)
    (hmem : u ∈ users)
    (ha : u.is_active = true) :
    login_view users req = Except.ok
      ⟨some LoginResponse.loginSuccess, some u, [Msg.success "Login successful"]⟩ := by
  have hauth := authenticate_of_match users u hn hmem ha
  simp [login_view, hm, hu, hp, hauth]

/-- C4 witness: the spec's scenario, alice logging in with her password. -/
theorem C4_witness :
    (([⟨1, "alice", "correct123", true, []⟩] : List UserModel).map
      (fun x => x.username)).Nodup ∧
    login_view [⟨1, "alice", "correct123", true, []⟩]
      ⟨Method.POST, none, [("username", "alice"), ("password", "correct123")], []⟩
      = Except.ok ⟨some LoginResponse.loginSuccess,
          some ⟨1, "alice", "correct123", true, []⟩,
          [Msg.success "Login successful"]⟩ :=
  ⟨by decide, C4_login_success [⟨1, "alice", "correct123", true, []⟩]
    ⟨Method.POST, none, [("username", "alice"), ("password", "correct123")], []⟩
    ⟨1, "alice", "correct123", true, []⟩
    (by decide) rfl rfl rfl (by decide) rfl⟩

/-- C5: a POST to `login_view` whose credentials match no existing active
user leaves the session exactly as it was, emits the invalid-credentials
error message and redirects back to the login entry point. -/
theorem C5_login_failure (users : List UserModel) (req : Request) (un pw : String)
    (hm : req.method = Method.POST)
    (hu : getKey req.post "username" = some un)
    (hp : getKey req.post "password" = some pw)
    (hno : ∀ u ∈ users, ¬(u.username = un ∧ u.password = pw ∧ u.is_active = true)) :
    login_view users req = Except.ok
      ⟨some LoginResponse.redirectLogin, req.sessionUser,
        [Msg.error "Invalid username or password"]⟩ := by
  have hauth := authenticate_of_no_match users un pw hno
  simp [login_view, hm, hu, hp, hauth]

/-- C5 witness: a concrete wrong password for alice fails without a
session. -/
theorem C5_witness :
    getKey [("username", "alice"), ("password", "wrong")] "username" = some "alice" ∧
    login_view [⟨1, "alice", "correct123", true, []⟩]
      ⟨Method.POST, none, [("username", "alice"), ("password", "wrong")], []⟩
      = Except.ok ⟨some LoginResponse.redirectLogin, none,
          [Msg.error "Invalid username or password"]⟩ :=
  ⟨rfl, C5_login_failure [⟨1, "alice", "correct123", true, []⟩]
    ⟨Method.POST, none, [("username", "alice"), ("password", "wrong")], []⟩
    "alice" "wrong" rfl rfl rfl (by decide)⟩

/-- C2 counterexample: an authorized POST whose `nombre` is non-empty and
whose `precio` `"123456789.12"` is parseable as a decimal with exactly two
fractional digits persists nothing — `DecimalValidator(10, 2)` rejects its
eleven digits — and the response reports an error, not success. -/
theorem C2_counterexample :
    (create_product
      ⟨[⟨1, "alice", "pw", true, ["products.add_productmodel"]⟩], [], 1⟩
      ⟨Method.POST, some ⟨1, "alice", "pw", true, ["products.add_productmodel"]⟩,
        [("nombre", "Widget"), ("precio", "123456789.12")], []⟩).db.products = [] ∧
    (create_product
      ⟨[⟨1, "alice", "pw", true, ["products.add_productmodel"]⟩], [], 1⟩
      ⟨Method.POST, some ⟨1, "alice", "pw", true, ["products.add_productmodel"]⟩,
        [("nombre", "Widget"), ("precio", "123456789.12")], []⟩).messages
      = [Msg.error "Error creating product"] ∧
    parseDecimal "123456789.12"
      = some ⟨false, [1, 2, 3, 4, 5, 6, 7, 8, 9], [1, 2]⟩ := by
  decide

/-- C2 (amended): for every POST to `create_product` by an authenticated,
authorized user whose body passes the form validation (`nombre` non-blank
after stripping and at most 100 characters; `precio` a decimal literal with
at most 2 fractional digits, at most 10 significant digits and at most 8
integer digits), exactly one product row is appended, its `created_by` and
`updated_by` both equal the requesting user, its `active` flag is true, and
the success message is reported. -/
theorem C2_create_valid (db : DB) (req : Request) (u : UserModel)
    (n : String) (p : Dec)
    (hs : req.sessionUser = some u)
    (hperm : has_perm u "products.add_productmodel" = true)
    (hm : req.method = Method.POST)
    (hn : clean_nombre (extractData req).nombre = Except.ok n)
    (hp : clean_precio (extractData req).precio = Except.ok p) :
    (create_product db req).db.products = db.products ++
      [⟨db.nextPk, (extractData req).imagen, n,
        clean_descripcion (extractData req).descripcion, p, u.id, u.id, true⟩] ∧
    (create_product db req).db.users = db.users ∧
    (create_product db req).messages = [Msg.success "Product created successfully"] := by
  simp [create_product, hs, hperm, hm, hn, hp]

/-- C2 witness: the spec's scenario, an authorized alice posting
nombre "Widget", precio "19.99"; exactly the one expected row appears. -/
theorem C2_witness :
    clean_nombre (extractData
      ⟨Method.POST, some ⟨1, "alice", "pw", true, ["products.add_productmodel"]⟩,
        [("nombre", "Widget"), ("precio", "19.99")], []⟩).nombre
      = Except.ok "Widget" ∧
    ((create_product
        ⟨[⟨1, "alice", "pw", true, ["products.add_productmodel"]⟩], [], 1⟩
        ⟨Method.POST, some ⟨1, "alice", "pw", true, ["products.add_productmodel"]⟩,
          [("nombre", "Widget"), ("precio", "19.99")], []⟩).db.products
      = [⟨1, none, "Widget", none, ⟨false, [1, 9], [9, 9]⟩, 1, 1, true⟩] ∧
     (create_product
        ⟨[⟨1, "alice", "pw", true, ["products.add_productmodel"]⟩], [], 1⟩
        ⟨Method.POST, some ⟨1, "alice", "pw", true, ["products.add_productmodel"]⟩,
          [("nombre", "Widget"), ("precio", "19.99")], []⟩).db.users
      = [⟨1, "alice", "pw", true, ["products.add_productmodel"]⟩] ∧
     (create_product
        ⟨[⟨1, "alice", "pw", true, ["products.add_productmodel"]⟩], [], 1⟩
        ⟨Method.POST, some ⟨1, "alice", "pw", true, ["products.add_productmodel"]⟩,
          [("nombre", "Widget"), ("precio", "19.99")], []⟩).messages
      = [Msg.success "Product created successfully"]) :=
  ⟨by decide, C2_create_valid
    ⟨[⟨1, "alice", "pw", true, ["products.add_productmodel"]⟩], [], 1⟩
    ⟨Method.POST, some ⟨1, "alice", "pw", true, ["products.add_productmodel"]⟩,
      [("nombre", "Widget"), ("precio", "19.99")], []⟩
    ⟨1, "alice", "pw", true, ["products.add_productmodel"]⟩
    "Widget" ⟨false, [1, 9], [9, 9]⟩
    rfl (by decide) rfl (by decide) (by decide)⟩

theorem create_product_invalid_branch (db : DB) (req : Request) (u : UserModel)
    (hs : req.sessionUser = some u)
    (hperm : has_perm u "products.add_productmodel" = true)
    (hm : req.method = Method.POST)
    (hbad : clean_nombre (extractData req).nombre = Except.error FieldError.required ∨
      ∃ e, clean_precio (extractData req).precio = Except.error e) :
    create_product db req =
      ⟨some (CreateResponse.renderBoundForm (extractData req)
        (productFormErrors (extractData req))), db,
        [Msg.error "Error creating product"]⟩ := by
  cases hcn : clean_nombre (extractData req).nombre with
  | error e1 =>
    cases hcp : clean_precio (extractData req).precio <;>
      simp [create_product, hs, hperm, hm, hcn, hcp]
  | ok n =>
    cases hcp : clean_precio (extractData req).precio with
    | error e2 => simp [create_product, hs, hperm, hm, hcn, hcp]
    | ok p =>
      exfalso
      rcases hbad with h1 | ⟨e, h1⟩
      · rw [hcn] at h1; cases h1
      · rw [hcp] at h1; cases h1

/-- C3: an authorized POST to `create_product` with a missing `nombre` or an
unparseable `precio` persists nothing: the database is unchanged, the error
message is reported, the bound form is re-rendered carrying the submitted
values, a missing `nombre` yields its required error, an unparseable
`precio` yields a non-empty precio error list, and each field's error list
is empty exactly when that field's own cleaning succeeds. -/
theorem C3_invalid_post (db : DB) (req : Request) (u : UserModel)
    (hs : req.sessionUser = some u)
    (hperm : has_perm u "products.add_productmodel" = true)
    (hm : req.method = Method.POST)
    (hbad : (extractData req).nombre = none ∨
      precioUnparseable (extractData req).precio = true) :
    (create_product db req).db = db ∧
    (create_product db req).messages = [Msg.error "Error creating product"] ∧
    (create_product db req).response = some (CreateResponse.renderBoundForm
      (extractData req) (productFormErrors (extractData req))) ∧
    ((extractData req).nombre = none →
      (productFormErrors (extractData req)).nombre = [FieldError.required]) ∧
    (precioUnparseable (extractData req).precio = true →
      (productFormErrors (extractData req)).precio ≠ []) ∧
    ((productFormErrors (extractData req)).nombre = [] ↔
      ∃ s, clean_nombre (extractData req).nombre = Except.ok s) ∧
    ((productFormErrors (extractData req)).precio = [] ↔
      ∃ d, clean_precio (extractData req).precio = Except.ok d) := by
  have hne : clean_nombre (extractData req).nombre = Except.error FieldError.required ∨
      ∃ e, clean_precio (extractData req).precio = Except.error e := by
    rcases hbad with h | h
    · left; rw [h]; exact clean_nombre_none
    · right
      rcases clean_precio_of_unparseable _ h with h1 | h1
      · exact ⟨_, h1⟩
      · exact ⟨_, h1⟩
  have heq := create_product_invalid_branch db req u hs hperm hm hne
  refine ⟨by rw [heq], by rw [heq], by rw [heq], ?_, ?_,
    errList_nil_iff _, errList_nil_iff _⟩
  · intro h
    simp [productFormErrors, h, clean_nombre_none, errList]
  · intro h
    rcases clean_precio_of_unparseable _ h with h1 | h1 <;>
      simp [productFormErrors, h1, errList]

/-- C3 witness: an authorized POST with no `nombre` field and a non-numeric
`precio` changes nothing and marks both fields. -/
theorem C3_witness :
    (extractData ⟨Method.POST,
      some ⟨1, "alice", "pw", true, ["products.add_productmodel"]⟩,
      [("precio", "abc")], []⟩).nombre = none ∧
    ((create_product
        ⟨[⟨1, "alice", "pw", true, ["products.add_productmodel"]⟩], [], 1⟩
        ⟨Method.POST, some ⟨1, "alice", "pw", true, ["products.add_productmodel"]⟩,
          [("precio", "abc")], []⟩).db
      = ⟨[⟨1, "alice", "pw", true, ["products.add_productmodel"]⟩], [], 1⟩ ∧
     (create_product
        ⟨[⟨1, "alice", "pw", true, ["products.add_productmodel"]⟩], [], 1⟩
        ⟨Method.POST, some ⟨1, "alice", "pw", true, ["products.add_productmodel"]⟩,
          [("precio", "abc")], []⟩).messages = [Msg.error "Error creating product"] ∧
     (create_product
        ⟨[⟨1, "alice", "pw", true, ["products.add_productmodel"]⟩], [], 1⟩
        ⟨Method.POST, some ⟨1, "alice", "pw", true, ["products.add_productmodel"]⟩,
          [("precio", "abc")], []⟩).response
      = some (CreateResponse.renderBoundForm
          (extractData ⟨Method.POST,
            some ⟨1, "alice", "pw", true, ["products.add_productmodel"]⟩,
            [("precio", "abc")], []⟩)
          (productFormErrors (extractData ⟨Method.POST,
            some ⟨1, "alice", "pw", true, ["products.add_productmodel"]⟩,
            [("precio", "abc")], []⟩))) ∧
     ((extractData ⟨Method.POST,
        some ⟨1, "alice", "pw", true, ["products.add_productmodel"]⟩,
        [("precio", "abc")], []⟩).nombre = none →
       (productFormErrors (extractData ⟨Method.POST,
         some ⟨1, "alice", "pw", true, ["products.add_productmodel"]⟩,
         [("precio", "abc")], []⟩)).nombre = [FieldError.required]) ∧
     (precioUnparseable (extractData ⟨Method.POST,
        some ⟨1, "alice", "pw", true, ["products.add_productmodel"]⟩,
        [("precio", "abc")], []⟩).precio = true →
       (productFormErrors (extractData ⟨Method.POST,
         some ⟨1, "alice", "pw", true, ["products.add_productmodel"]⟩,
         [("precio", "abc")], []⟩)).precio ≠ []) ∧
     ((productFormErrors (extractData ⟨Method.POST,
        some ⟨1, "alice", "pw", true, ["products.add_productmodel"]⟩,
        [("precio", "abc")], []⟩)).nombre = [] ↔
       ∃ s, clean_nombre (extractData ⟨Method.POST,
         some ⟨1, "alice", "pw", true, ["products.add_productmodel"]⟩,
         [("precio", "abc")], []⟩).nombre = Except.ok s) ∧
     ((productFormErrors (extractData ⟨Method.POST,
        some ⟨1, "alice", "pw", true, ["products.add_productmodel"]⟩,
        [("precio", "abc")], []⟩)).precio = [] ↔
       ∃ d, clean_precio (extractData ⟨Method.POST,
         some ⟨1, "alice", "pw", true, ["products.add_productmodel"]⟩,
         [("precio", "abc")], []⟩).precio = Except.ok d)) :=
  ⟨rfl, C3_invalid_post
    ⟨[⟨1, "alice", "pw", true, ["products.add_productmodel"]⟩], [], 1⟩
    ⟨Method.POST, some ⟨1, "alice", "pw", true, ["products.add_productmodel"]⟩,
      [("precio", "abc")], []⟩
    ⟨1, "alice", "pw", true, ["products.add_productmodel"]⟩
    rfl (by decide) rfl (Or.inl rfl)⟩

/-- C8: the `AuditModel` referential invariant. With every product's
`created_by` and `updated_by` referencing an existing user: deleting a user
referenced by any product's `created_by` or `updated_by` is blocked by
`on_delete=PROTECT`; a delete that does go through keeps the invariant; and
`create_product` (the only operation that writes products, stamping both
references with the requesting session user) keeps the invariant. -/
theorem C8_audit_integrity (db : DB) (req : Request) (uid : Nat) (u : UserModel)
    (hinv : refsOk db = true) (hu : req.sessionUser = some u)
    (hmem : u ∈ db.users) :
    (db.products.any (fun p => p.created_by == uid || p.updated_by == uid) = true →
      deleteUser db uid = none) ∧
    (∀ db2, deleteUser db uid = some db2 → refsOk db2 = true) ∧
    refsOk (create_product db req).db = true := by
  have hinv2 := hinv
  rw [refsOk, List.all_eq_true] at hinv2
  refine ⟨fun h => by simp [deleteUser, h], ?_, ?_⟩
  · intro db2 hdel
    unfold deleteUser at hdel
    by_cases hany : db.products.any
        (fun p => p.created_by == uid || p.updated_by == uid) = true
    · rw [if_pos hany] at hdel; cases hdel
    · rw [if_neg hany] at hdel
      injection hdel with h2
      subst h2
      rw [refsOk, List.all_eq_true]
      intro p hp
      have hinvp := hinv2 p hp
      simp only [Bool.and_eq_true] at hinvp
      have hnc : p.created_by ≠ uid := by
        intro he
        exact hany (List.any_eq_true.mpr ⟨p, hp, by simp [he]⟩)
      have hnu : p.updated_by ≠ uid := by
        intro he
        exact hany (List.any_eq_true.mpr ⟨p, hp, by simp [he]⟩)
      simp only [Bool.and_eq_true]
      exact ⟨userExists_filter db.users uid p.created_by hnc hinvp.1,
        userExists_filter db.users uid p.updated_by hnu hinvp.2⟩
  · have hex : userExists db.users u.id = true := userExists_of_mem db.users u hmem
    cases hb : has_perm u "products.add_productmodel" with
    | false => simp [create_product, hu, hb, hinv]
    | true =>
      by_cases hg : req.method = Method.GET
      · simp [create_product, hu, hb, hg, hinv]
      · by_cases hpst : req.method = Method.POST
        · cases hcn : clean_nombre (extractData req).nombre with
          | error e =>
            cases hcp : clean_precio (extractData req).precio <;>
              simp [create_product, hu, hb, hg, hpst, hcn, hcp, hinv]
          | ok n =>
            cases hcp : clean_precio (extractData req).precio with
            | error e =>
              simp [create_product, hu, hb, hg, hpst, hcn, hcp, hinv]
            | ok p =>
              have hdb : (create_product db req).db =
                  ⟨db.users, db.products ++
                    [⟨db.nextPk, (extractData req).imagen, n,
                      clean_descripcion (extractData req).descripcion, p,
                      u.id, u.id, true⟩], db.nextPk + 1⟩ := by
                simp [create_product, hu, hb, hg, hpst, hcn, hcp]
              rw [hdb, refsOk]
              rw [List.all_append, Bool.and_eq_true]
              refine ⟨?_, ?_⟩
              · rw [refsOk] at hinv; exact hinv
              · simp [hex]
        · simp [create_product, hu, hb, hg, hpst, hinv]

/-- C8 witness: a concrete store where alice is referenced by a product; her
deletion is blocked and both operations preserve the invariant. -/
theorem C8_witness :
    refsOk ⟨[⟨1, "alice", "pw", true, ["products.add_productmodel"]⟩],
      [⟨1, none, "Widget", none, ⟨false, [1, 9], [9, 9]⟩, 1, 1, true⟩], 2⟩ = true ∧
    (((⟨[⟨1, "alice", "pw", true, ["products.add_productmodel"]⟩],
        [⟨1, none, "Widget", none, ⟨false, [1, 9], [9, 9]⟩, 1, 1, true⟩], 2⟩ :
        DB).products.any (fun p => p.created_by == 1 || p.updated_by == 1) = true →
      deleteUser ⟨[⟨1, "alice", "pw", true, ["products.add_productmodel"]⟩],
        [⟨1, none, "Widget", none, ⟨false, [1, 9], [9, 9]⟩, 1, 1, true⟩], 2⟩ 1 = none) ∧
    (∀ db2, deleteUser ⟨[⟨1, "alice", "pw", true, ["products.add_productmodel"]⟩],
        [⟨1, none, "Widget", none, ⟨false, [1, 9], [9, 9]⟩, 1, 1, true⟩], 2⟩ 1
        = some db2 → refsOk db2 = true) ∧
    refsOk (create_product
      ⟨[⟨1, "alice", "pw", true, ["products.add_productmodel"]⟩],
        [⟨1, none, "Widget", none, ⟨false, [1, 9], [9, 9]⟩, 1, 1, true⟩], 2⟩
      ⟨Method.GET, some ⟨1, "alice", "pw", true, ["products.add_productmodel"]⟩,
        [], []⟩).db = true) :=
  ⟨by decide, C8_audit_integrity
    ⟨[⟨1, "alice", "pw", true, ["products.add_productmodel"]⟩],
      [⟨1, none, "Widget", none, ⟨false, [1, 9], [9, 9]⟩, 1, 1, true⟩], 2⟩
    ⟨Method.GET, some ⟨1, "alice", "pw", true, ["products.add_productmodel"]⟩, [], []⟩
    1 ⟨1, "alice", "pw", true, ["products.add_productmodel"]⟩
    (by decide) rfl (by decide)⟩
